import Mathlib

/-!
Verification of the ai_sms repository core against its specification.

The development shallowly embeds the relevant Python code:

* `src/src/emotion_monitor.py` — the `MetricsEngine` class (`push`/`compute`),
  modelled over real numbers (`ℝ` stands for the Python floats; `np.clip`,
  `np.mean`, `np.std`, entropy and the EMA update are translated literally).
* `src/backend/app/services/capture_worker.py` — `CaptureWorker.start`,
  `CaptureWorker.stop`, `CaptureWorker._read_stdout`, modelled as pure state
  transitions; external effects (process spawn success, terminate success,
  JSON decoding) are supplied as explicit oracle parameters.
* `src/backend/app/services/process_manager.py` — `ProcessManager.start_capture`
  and `stop_capture` over a registry modelled as a map
  `String → Option CaptureWorker`.  The bodies of these `async def`s contain no
  `await` between the running-worker check and the registration of a new
  worker, so concurrent invocations under the cooperative asyncio scheduler
  execute the critical section atomically; concurrent start attempts are
  therefore modelled as a sequence of such atomic transitions.
* `src/backend/app/api/ingest.py` — the `/ingest` endpoint loop,
  `insert_event` and `write_to_fallback`, with database, relay publish and
  fallback-file success supplied as oracles, and `process_manager.on_event`
  (the capture-worker callback ingestion path).
* `src/backend/app/api/ws.py` — `ConnectionManager.broadcast_to_room`,
  `ConnectionManager.disconnect`, the per-connection forwarding-task start in
  `websocket_live`, and the relay listen loop of `subscribe_and_forward`.
-/

namespace EmotionMonitor

/-- Source: `np.clip(x, 0, 1)`: the lower bound is applied first, then the upper. -/
noncomputable def clip01 (x : ℝ) : ℝ := min 1 (max 0 x)

/-- Source: `np.mean` of a list (`[].sum / [].length` degenerates to `0` here;
every use below is guarded by the code exactly as in the source). -/
noncomputable def listMean (xs : List ℝ) : ℝ := xs.sum / xs.length

/-- Source: `np.std` (population standard deviation) of a list. -/
noncomputable def listStd (xs : List ℝ) : ℝ :=
  Real.sqrt (listMean (xs.map (fun x => (x - listMean xs) ^ 2)))

/-- One sample pushed into the `MetricsEngine` windows: the class-probability
vector over `LABELS = [Happy, Sad, Angry, Surprise, Fear, Disgust, Neutral]`,
the winning label, the face box, optional eye-aspect ratio, optional head
pose and the receipt time (`time.time()` is passed in explicitly). -/
structure Sample where
  probs : Fin 7 → ℝ
  top : String
  box : Option (ℝ × ℝ × ℝ × ℝ)
  ear : Option ℝ
  pose : Option (ℝ × ℝ × ℝ)
  ts : ℝ

instance : Inhabited Sample := ⟨⟨fun _ => 0, "", none, none, none, 0⟩⟩

/-- State of `MetricsEngine` (`emotion_monitor.py`, lines 109–121).  The two
deques hold the most recent element last, mirroring `collections.deque`
append order. -/
structure MetricsEngine where
  short_w : ℕ
  long_w : ℕ
  ema_alpha : ℝ
  buf : List Sample
  long_buf : List Sample
  center_vel : List ℝ
  prev_center : Option (ℝ × ℝ)
  eng_ema : Option ℝ

namespace MetricsEngine

/-- Source: `MetricsEngine.__init__(short_w=30, long_w=300, ema_alpha=0.2)`. -/
noncomputable def init (short_w : ℕ := 30) (long_w : ℕ := 300)
    (ema_alpha : ℝ := 0.2) : MetricsEngine :=
  ⟨short_w, long_w, ema_alpha, [], [], [], none, none⟩

/-- Source: `collections.deque(maxlen=cap).append x`: append at the right, evicting
from the left on overflow. -/
def dequeAppend {α : Type} (cap : ℕ) (xs : List α) (x : α) : List α :=
  (xs ++ [x]).drop (xs.length + 1 - cap)

/-- Source: `MetricsEngine.push` (lines 123–150): append the sample to both windows;
if a box is present, record the normalized centre displacement in
`center_vel` and update `prev_center`, otherwise record `0.0`. -/
noncomputable def push (e : MetricsEngine) (probs : Fin 7 → ℝ) (top : String)
    (box : Option (ℝ × ℝ × ℝ × ℝ)) (ear : Option ℝ)
    (pose : Option (ℝ × ℝ × ℝ)) (ts : ℝ) : MetricsEngine :=
  let s : Sample := ⟨probs, top, box, ear, pose, ts⟩
  let buf1 := dequeAppend e.short_w e.buf s
  let long1 := dequeAppend e.long_w e.long_buf s
  match box with
  | some (x, y, w, h) =>
      let cx := x + w / 2
      let cy := y + h / 2
      let dist : ℝ :=
        match e.prev_center with
        | none => 0
        | some (px, py) => Real.sqrt ((cx - px) ^ 2 + (cy - py) ^ 2)
      let norm_dist := dist / max 1 ((w + h) / 2)
      { e with
        buf := buf1
        long_buf := long1
        center_vel := dequeAppend e.short_w e.center_vel norm_dist
        prev_center := some (cx, cy) }
  | none =>
      { e with
        buf := buf1
        long_buf := long1
        center_vel := dequeAppend e.short_w e.center_vel 0 }

/-- Source: `cur = probs_arr[-1]`: probability vector of the newest sample.  (The
default is irrelevant: `compute` guards `if not self.buf`.) -/
noncomputable def curProbs (e : MetricsEngine) : Fin 7 → ℝ :=
  (e.buf.getLastD default).probs

/-- Column `c` of `probs_arr` (all short-window samples). -/
noncomputable def classCol (e : MetricsEngine) (c : Fin 7) : List ℝ :=
  e.buf.map (fun b => b.probs c)

/-- Source: `A_raw = 0.6*pSur + 0.35*pNeu - 0.25*(pSad+pAng+pFea+pDis)` where the
unpacking `pH, pSad, pAng, pSur, pFea, pDis, pNeu = cur.tolist()` follows
the label order. -/
noncomputable def attRaw (e : MetricsEngine) : ℝ :=
  0.6 * curProbs e 3 + 0.35 * curProbs e 6 -
    0.25 * (curProbs e 1 + curProbs e 2 + curProbs e 4 + curProbs e 5)

/-- Source: `Att = np.clip(A_raw, 0, 1)`. -/
noncomputable def attentiveness (e : MetricsEngine) : ℝ := clip01 (attRaw e)

/-- Source: `P_raw = pH*1 + pNeu*0.2 - pSad*0.6 - pAng*0.6 - pDis*0.5 - pFea*0.4 + pSur*0.15`. -/
noncomputable def posRaw (e : MetricsEngine) : ℝ :=
  curProbs e 0 * 1 + curProbs e 6 * 0.2 - curProbs e 1 * 0.6 -
    curProbs e 2 * 0.6 - curProbs e 5 * 0.5 - curProbs e 4 * 0.4 +
    curProbs e 3 * 0.15

/-- Source: `Pos = np.clip((P_raw + 0.6) / 1.6, 0, 1)`. -/
noncomputable def positivity (e : MetricsEngine) : ℝ :=
  clip01 ((posRaw e + 0.6) / 1.6)

/-- Source: `Eng_raw = 0.7 * Att + 0.3 * Pos`. -/
noncomputable def engRaw (e : MetricsEngine) : ℝ :=
  0.7 * attentiveness e + 0.3 * positivity e

/-- The engagement EMA after the update performed inside `compute`
(lines 172–175): the first value bypasses smoothing. -/
noncomputable def engEmaNext (e : MetricsEngine) : ℝ :=
  match e.eng_ema with
  | none => engRaw e
  | some v => (1 - e.ema_alpha) * v + e.ema_alpha * engRaw e

/-- Source: `Eng = np.clip(self.eng_ema, 0, 1)` after the in-place EMA update. -/
noncomputable def engagement (e : MetricsEngine) : ℝ := clip01 (engEmaNext e)

/-- Source: `neutral_sad = sum(1 for t in top_labels if t in ("Neutral","Sad")) / len(top_labels)`. -/
noncomputable def neutralSadFrac (e : MetricsEngine) : ℝ :=
  ((e.buf.filter (fun b => b.top == "Neutral" || b.top == "Sad")).length : ℝ) /
    e.buf.length

/-- Source: `mean_probs = np.mean(probs_arr, axis=0)`. -/
noncomputable def meanProbs (e : MetricsEngine) (c : Fin 7) : ℝ :=
  listMean (classCol e c)

/-- Source: `ent = -np.sum(mean_probs * np.log(mean_probs + 1e-12)) / np.log(len(mean_probs))`. -/
noncomputable def entropyNorm (e : MetricsEngine) : ℝ :=
  -(∑ c : Fin 7, meanProbs e c * Real.log (meanProbs e c + 1e-12)) / Real.log 7

/-- Source: `Boredom = np.clip(neutral_sad * 0.8 + low_var * 0.2, 0, 1)` with
`low_var = 1 - ent`. -/
noncomputable def boredom (e : MetricsEngine) : ℝ :=
  clip01 (neutralSadFrac e * 0.8 + (1 - entropyNorm e) * 0.2)

/-- Source: `base = pAng + pFea + pDis` (columns 2, 4, 5). -/
noncomputable def frustBase (e : MetricsEngine) : ℝ :=
  curProbs e 2 + curProbs e 4 + curProbs e 5

/-- Source: `prev_mean = np.mean(probs_arr[:-1,2] + probs_arr[:-1,4] + probs_arr[:-1,5])
if len(probs_arr) > 1 else 0`. -/
noncomputable def frustPrevMean (e : MetricsEngine) : ℝ :=
  if 1 < e.buf.length then
    listMean (e.buf.dropLast.map (fun b => b.probs 2 + b.probs 4 + b.probs 5))
  else 0

/-- Source: `Fr = np.clip(0.6 * base + 0.4 * max(0.0, base - prev_mean), 0, 1)`. -/
noncomputable def frustration (e : MetricsEngine) : ℝ :=
  clip01 (0.6 * frustBase e + 0.4 * max 0 (frustBase e - frustPrevMean e))

/-- Source: `np.mean(np.std(probs_arr, axis=0))`: mean of the 7 per-class standard
deviations over the short window. -/
noncomputable def meanStd (e : MetricsEngine) : ℝ :=
  (∑ c : Fin 7, listStd (classCol e c)) / 7

/-- Source: `Vol = np.clip(np.mean(stds) / 0.5, 0, 1)`. -/
noncomputable def volatility (e : MetricsEngine) : ℝ := clip01 (meanStd e / 0.5)

/-- Source: `move = np.clip(np.mean(self.center_vel) * 3.0, 0, 1)`. -/
noncomputable def moveClipped (e : MetricsEngine) : ℝ :=
  clip01 (listMean e.center_vel * 3.0)

/-- Source: `Distraction = np.clip(0.6 * move + 0.4 * (1 - Att), 0, 1)`. -/
noncomputable def distraction (e : MetricsEngine) : ℝ :=
  clip01 (0.6 * moveClipped e + 0.4 * (1 - attentiveness e))

/-- Source: `ears = [b["ear"] for b in self.buf if b["ear"] is not None]`. -/
noncomputable def earList (e : MetricsEngine) : List ℝ :=
  e.buf.filterMap (fun b => b.ear)

/-- Source: `Fatigue = np.clip(1.0 - (avg_ear - 0.10) / 0.25, 0, 1)` when at least
one ear sample is present, else `0.0` (lines 201–206). -/
noncomputable def fatigue (e : MetricsEngine) : ℝ :=
  if 0 < (earList e).length then
    clip01 (1.0 - (listMean (earList e) - 0.10) / 0.25)
  else 0.0

/-- Source: `lf`: the Neutral/Sad fraction of the long window. -/
noncomputable def longNeutralSadFrac (e : MetricsEngine) : ℝ :=
  ((e.long_buf.filter (fun b => b.top == "Neutral" || b.top == "Sad")).length : ℝ) /
    e.long_buf.length

/-- Source: `long_vol = np.mean(np.std(long_probs, axis=0))`. -/
noncomputable def longMeanStd (e : MetricsEngine) : ℝ :=
  (∑ c : Fin 7, listStd (e.long_buf.map (fun b => b.probs c))) / 7

/-- The risk score (lines 208–216), switching formula on `len(self.long_buf) > 10`. -/
noncomputable def risk (e : MetricsEngine) : ℝ :=
  if 10 < e.long_buf.length then
    clip01 (0.5 * longNeutralSadFrac e + 0.3 * frustration e +
      0.2 * clip01 (longMeanStd e / 0.5))
  else
    clip01 (0.5 * boredom e + 0.3 * frustration e + 0.2 * volatility e)

end MetricsEngine

/-- The nine derived metrics returned by `MetricsEngine.compute`. -/
structure DerivedMetrics where
  attentiveness : ℝ
  positivity : ℝ
  engagement : ℝ
  boredom : ℝ
  frustration : ℝ
  volatility : ℝ
  distraction : ℝ
  fatigue : ℝ
  risk : ℝ

namespace MetricsEngine

/-- The metrics dictionary built at the end of `compute` (lines 218–228). -/
noncomputable def computeMetrics (e : MetricsEngine) : DerivedMetrics :=
  ⟨attentiveness e, positivity e, engagement e, boredom e, frustration e,
   volatility e, distraction e, fatigue e, risk e⟩

/-- Source: `MetricsEngine.compute` (lines 152–228): returns `{}` (here `none`) on an
empty short window; otherwise returns the metrics and the engine with its
`eng_ema` overwritten by the in-place EMA update of lines 172–175. -/
noncomputable def compute (e : MetricsEngine) :
    Option DerivedMetrics × MetricsEngine :=
  if e.buf.isEmpty then (none, e)
  else (some (computeMetrics e), { e with eng_ema := some (engEmaNext e) })

end MetricsEngine

/-- Membership in the closed unit interval. -/
def inUnit (x : ℝ) : Prop := 0 ≤ x ∧ x ≤ 1

theorem clip01_inUnit (x : ℝ) : inUnit (EmotionMonitor.clip01 x) :=
  ⟨le_min zero_le_one (le_max_left 0 x), min_le_left 1 (max 0 x)⟩

theorem clip01_of_inUnit {x : ℝ} (h0 : 0 ≤ x) (h1 : x ≤ 1) :
    EmotionMonitor.clip01 x = x := by
  rw [clip01, max_eq_right h0, min_eq_right h1]

theorem engRaw_inUnit (e : MetricsEngine) : inUnit e.engRaw := by
  obtain ⟨a0, a1⟩ := clip01_inUnit e.attRaw
  obtain ⟨p0, p1⟩ := clip01_inUnit ((e.posRaw + 0.6) / 1.6)
  constructor
  · simp only [MetricsEngine.engRaw, MetricsEngine.attentiveness,
      MetricsEngine.positivity]
    nlinarith
  · simp only [MetricsEngine.engRaw, MetricsEngine.attentiveness,
      MetricsEngine.positivity]
    nlinarith

theorem compute_fst_of_ne_nil {e : MetricsEngine} (h : e.buf ≠ []) :
    (e.compute).1 = some e.computeMetrics := by
  have hb : e.buf.isEmpty = false := by
    simpa [List.isEmpty_iff] using h
  simp [MetricsEngine.compute, hb]

theorem compute_snd_of_ne_nil {e : MetricsEngine} (h : e.buf ≠ []) :
    (e.compute).2 = { e with eng_ema := some e.engEmaNext } := by
  have hb : e.buf.isEmpty = false := by
    simpa [List.isEmpty_iff] using h
  simp [MetricsEngine.compute, hb]

/-- C1: For every non-empty short window (at least one pushed sample) whose
probability vectors sum to approximately 1, `MetricsEngine.compute()` returns
all nine derived metrics (attentiveness, positivity, engagement, boredom,
frustration, volatility, distraction, fatigue, risk), and each returned value
lies in the closed interval `[0, 1]`. -/
theorem compute_returns_nine_metrics_in_unit_interval (e : MetricsEngine)
    (h : e.buf ≠ [])
    (hp : ∀ s ∈ e.buf, |(∑ c : Fin 7, s.probs c) - 1| ≤ 1 / 100) :
    ∃ m, (e.compute).1 = some m ∧
      inUnit m.attentiveness ∧ inUnit m.positivity ∧ inUnit m.engagement ∧
      inUnit m.boredom ∧ inUnit m.frustration ∧ inUnit m.volatility ∧
      inUnit m.distraction ∧ inUnit m.fatigue ∧ inUnit m.risk := by
  refine ⟨e.computeMetrics, compute_fst_of_ne_nil h,
    clip01_inUnit _, clip01_inUnit _, clip01_inUnit _, clip01_inUnit _,
    clip01_inUnit _, clip01_inUnit _, clip01_inUnit _, ?_, ?_⟩
  · show inUnit e.fatigue
    rw [MetricsEngine.fatigue]
    split
    · exact clip01_inUnit _
    · exact ⟨by norm_num, by norm_num⟩
  · show inUnit e.risk
    rw [MetricsEngine.risk]
    split
    · exact clip01_inUnit _
    · exact clip01_inUnit _

/-- Concrete fixture for the C1 witness: a single sample with the uniform
probability vector. -/
noncomputable def sampleC1 : Sample := ⟨fun _ => 1 / 7, "Neutral", none, none, none, 0⟩

/-- Concrete engine for the C1 witness. -/
noncomputable def engineC1 : MetricsEngine :=
  ⟨30, 300, 0.2, [sampleC1], [sampleC1], [0], none, none⟩

theorem compute_returns_nine_metrics_in_unit_interval_witness :
    ∃ m, (engineC1.compute).1 = some m ∧
      inUnit m.attentiveness ∧ inUnit m.positivity ∧ inUnit m.engagement ∧
      inUnit m.boredom ∧ inUnit m.frustration ∧ inUnit m.volatility ∧
      inUnit m.distraction ∧ inUnit m.fatigue ∧ inUnit m.risk :=
  compute_returns_nine_metrics_in_unit_interval engineC1
    (by simp [engineC1])
    (by
      intro s hs
      have hseq : s = sampleC1 := by simpa [engineC1] using hs
      subst hseq
      simp only [sampleC1, Fin.sum_univ_seven]
      norm_num)

/-- Written from the words of the spec for the risk formula: the "long-window
Neutral/Sad fraction" — the fraction of long-window samples whose winning
label is Neutral or Sad. -/
noncomputable def specLongNeutralSadFraction (e : MetricsEngine) : ℝ :=
  ((e.long_buf.filter (fun b => b.top == "Neutral" || b.top == "Sad")).length : ℝ) /
    e.long_buf.length

/-- Written from the words of the spec for the risk formula: the "mean per-class
std-dev over the long window" — the average over the seven emotion classes of
the standard deviation of the probability of that class across the long window. -/
noncomputable def specLongMeanStd (e : MetricsEngine) : ℝ :=
  (∑ c : Fin 7, listStd (e.long_buf.map (fun b => b.probs c))) / 7

/-- C4: `MetricsEngine.compute()` selects the risk formula by long-window
size: with more than 10 long-window samples,
`risk = clamp(0.5·(long-window Neutral/Sad fraction) + 0.3·frustration +
0.2·clamp(mean per-class std-dev over the long window / 0.5, 0, 1), 0, 1)`;
with 10 or fewer, `risk = clamp(0.5·boredom + 0.3·frustration +
0.2·volatility, 0, 1)`. -/
theorem compute_risk_branch_selection (e : MetricsEngine) (m : DerivedMetrics)
    (hm : (e.compute).1 = some m) :
    m.risk =
      if 10 < e.long_buf.length then
        clip01 (0.5 * specLongNeutralSadFraction e + 0.3 * m.frustration +
          0.2 * clip01 (specLongMeanStd e / 0.5))
      else
        clip01 (0.5 * m.boredom + 0.3 * m.frustration + 0.2 * m.volatility) := by
  have hb : e.buf ≠ [] := by
    intro hnil
    rw [MetricsEngine.compute] at hm
    simp [hnil] at hm
  rw [compute_fst_of_ne_nil hb] at hm
  obtain rfl : e.computeMetrics = m := by simpa using hm
  show e.risk = _
  rw [MetricsEngine.risk]
  rfl

/-- Concrete fixture for the C4 witness (short-branch case: a single sample,
so the long window holds 10 or fewer samples). -/
noncomputable def sampleC4 : Sample := ⟨fun _ => 1 / 7, "Happy", none, none, none, 0⟩

/-- Concrete engine for the C4 witness. -/
noncomputable def engineC4 : MetricsEngine :=
  ⟨30, 300, 0.2, [sampleC4], [sampleC4], [0], none, none⟩

theorem compute_risk_branch_selection_witness :
    (engineC4.compute).1 = some engineC4.computeMetrics ∧
      engineC4.computeMetrics.risk =
        if 10 < engineC4.long_buf.length then
          clip01 (0.5 * specLongNeutralSadFraction engineC4 +
            0.3 * engineC4.computeMetrics.frustration +
            0.2 * clip01 (specLongMeanStd engineC4 / 0.5))
        else
          clip01 (0.5 * engineC4.computeMetrics.boredom +
            0.3 * engineC4.computeMetrics.frustration +
            0.2 * engineC4.computeMetrics.volatility) :=
  ⟨compute_fst_of_ne_nil (by simp [engineC4]),
   compute_risk_branch_selection engineC4 engineC4.computeMetrics
     (compute_fst_of_ne_nil (by simp [engineC4]))⟩

/-- C10 supporting fact: `compute` leaves the short window untouched. -/
theorem compute_preserves_buf (e : MetricsEngine) : (e.compute).2.buf = e.buf := by
  rw [MetricsEngine.compute]
  split <;> rfl

/-- C10: `MetricsEngine.compute()` is state-mutating and not idempotent:
whenever the stored engagement EMA is already set, each call to `compute()`
overwrites it with `(1 − α)·oldEMA + α·engagementRaw` (with `α = 0.2`);
therefore two consecutive `compute()` calls with no intervening `push()`
return different engagement values whenever the stored EMA differs from the
current raw engagement, while `push()` itself never changes the EMA.
(The stored EMA is always a value previously produced by the engine, hence
in `[0, 1]`; the hypotheses `h0`, `h1` record this.) -/
theorem compute_ema_update_not_idempotent (e : MetricsEngine) (v : ℝ)
    (hv : e.eng_ema = some v) (h0 : 0 ≤ v) (h1 : v ≤ 1)
    (ha : e.ema_alpha = 0.2) (hb : e.buf ≠ []) (hne : v ≠ e.engRaw) :
    (e.compute).2.eng_ema =
        some ((1 - e.ema_alpha) * v + e.ema_alpha * e.engRaw) ∧
      (∃ m₁ m₂, (e.compute).1 = some m₁ ∧ ((e.compute).2.compute).1 = some m₂ ∧
        m₁.engagement ≠ m₂.engagement) ∧
      (∀ probs top box ear pose ts,
        (e.push probs top box ear pose ts).eng_ema = e.eng_ema) := by
  have hnext : e.engEmaNext = (1 - e.ema_alpha) * v + e.ema_alpha * e.engRaw := by
    rw [MetricsEngine.engEmaNext, hv]
  obtain ⟨hr0, hr1⟩ := engRaw_inUnit e
  set r := e.engRaw with hrdef
  have hsnd := compute_snd_of_ne_nil hb
  have hbuf2 : (e.compute).2.buf = e.buf := compute_preserves_buf e
  have hb2 : (e.compute).2.buf ≠ [] := by rw [hbuf2]; exact hb
  -- the second engine state differs from `e` only in `eng_ema`
  have hema1 : (e.compute).2.eng_ema = some e.engEmaNext := by rw [hsnd]
  refine ⟨by rw [hema1, hnext], ?_, ?_⟩
  · refine ⟨e.computeMetrics, (e.compute).2.computeMetrics,
      compute_fst_of_ne_nil hb, compute_fst_of_ne_nil hb2, ?_⟩
    show e.engagement ≠ (e.compute).2.engagement
    have hr2 : (e.compute).2.engRaw = r := by rw [hsnd]; rfl
    have halpha2 : (e.compute).2.ema_alpha = e.ema_alpha := by rw [hsnd]
    have hnext2 : (e.compute).2.engEmaNext =
        (1 - e.ema_alpha) * e.engEmaNext + e.ema_alpha * r := by
      rw [MetricsEngine.engEmaNext, hema1, halpha2, hr2]
    have hu1 : inUnit e.engEmaNext := by
      rw [hnext, ha]; constructor <;> nlinarith
    have hu2 : inUnit (e.compute).2.engEmaNext := by
      rw [hnext2, ha]
      obtain ⟨x0, x1⟩ := hu1
      constructor <;> nlinarith
    rw [MetricsEngine.engagement, MetricsEngine.engagement,
      clip01_of_inUnit hu1.1 hu1.2, clip01_of_inUnit hu2.1 hu2.2, hnext2, hnext]
    intro heq
    apply hne
    rw [ha] at heq
    show v = r
    nlinarith [heq]
  · intro probs top box ear pose ts
    rcases box with _ | ⟨x, y, w, h⟩ <;> rfl

/-- Concrete fixture for the C10 witness. -/
noncomputable def sampleC10 : Sample := ⟨fun _ => 1 / 7, "Happy", none, none, none, 0⟩

/-- Concrete engine for the C10 witness: `eng_ema` already set to `0`, which
differs from the raw engagement of the uniform sample. -/
noncomputable def engineC10 : MetricsEngine :=
  ⟨30, 300, 0.2, [sampleC10], [sampleC10], [0], none, some 0⟩

theorem compute_ema_update_not_idempotent_witness :
    (engineC10.compute).2.eng_ema =
        some ((1 - engineC10.ema_alpha) * 0 + engineC10.ema_alpha * engineC10.engRaw) ∧
      (∃ m₁ m₂, (engineC10.compute).1 = some m₁ ∧
        ((engineC10.compute).2.compute).1 = some m₂ ∧
        m₁.engagement ≠ m₂.engagement) ∧
      (∀ probs top box ear pose ts,
        (engineC10.push probs top box ear pose ts).eng_ema = engineC10.eng_ema) :=
  compute_ema_update_not_idempotent engineC10 0 rfl le_rfl zero_le_one rfl
    (by simp [engineC10])
    (by
      have : engineC10.engRaw = 0.7 * clip01 engineC10.attRaw +
          0.3 * clip01 ((engineC10.posRaw + 0.6) / 1.6) := rfl
      have hatt : engineC10.attRaw = -(1 / 140) := by
        simp [MetricsEngine.attRaw, MetricsEngine.curProbs, engineC10, sampleC10]
        norm_num
      have hpos : engineC10.posRaw = -(3 / 28) := by
        simp [MetricsEngine.posRaw, MetricsEngine.curProbs, engineC10, sampleC10]
        norm_num
      rw [this, hatt, hpos]
      rw [clip01, clip01]
      norm_num)

end EmotionMonitor

namespace Backend

/-- Runtime state of a `CaptureWorker` (`capture_worker.py`): the running
flag, the event/error counters, the session id and whether a child-process
handle exists (`self.process is not None`).  The wall-clock `started_at`
field and the thread handles carry no information used by the claims and are
omitted. -/
structure CaptureWorker where
  is_running : Bool
  events_count : ℕ
  error_count : ℕ
  session_id : Option ℤ
  has_process : Bool
deriving DecidableEq

namespace CaptureWorker

/-- Source: `CaptureWorker.__init__` (lines 24–43). -/
def init : CaptureWorker := ⟨false, 0, 0, none, false⟩

/-- Source: `CaptureWorker.start` (lines 45–116): reject if already running;
otherwise call `subprocess.Popen` (success given by the `spawnOk` oracle;
on failure the exception handler returns `False` with the worker unchanged),
then set the session id, the running flag and reset the counters.  The third
component counts the `Popen` launches performed by the call. -/
def start (w : CaptureWorker) (session_id : ℤ) (spawnOk : Bool) :
    Bool × CaptureWorker × ℕ :=
  if w.is_running then (false, w, 0)
  else if spawnOk then
    (true,
      { w with
        has_process := true
        session_id := some session_id
        is_running := true
        events_count := 0
        error_count := 0 }, 1)
  else (false, w, 1)

/-- Source: `CaptureWorker.stop` (lines 160–182): return `False` immediately when
there is no process handle or the worker is not running; otherwise send a
terminate signal and wait (the `termOk` oracle covers the
`except Exception` branch, whose `finally` still clears the running flag).
The third component counts terminate signals sent. -/
def stop (w : CaptureWorker) (termOk : Bool) : Bool × CaptureWorker × ℕ :=
  if !w.has_process || !w.is_running then (false, w, 0)
  else if termOk then (true, { w with is_running := false }, 1)
  else (false, { w with is_running := false }, 1)

end CaptureWorker

/-- A line-JSON event read from the capture stream: the optional
`source_device` key plus an opaque remainder of the decoded object. -/
structure StreamEvent where
  source_device : Option String
  payload : ℕ
deriving DecidableEq

/-- Source: `event.setdefault("source_device", self.device_id)`. -/
def tagSource (d : String) (ev : StreamEvent) : StreamEvent :=
  if ev.source_device = none then { ev with source_device := some d } else ev

/-- Source: `CaptureWorker._read_stdout` (lines 118–143) as a pure fold over the
list of lines produced by the standard output of the child process.  `decode`
models `json.loads` together with the conversion to a dict (returning `none`
exactly on a `JSONDecodeError`).  An empty line breaks the loop; a
whitespace-only line is skipped after `strip()`; a decodable line is tagged
and delivered, and only then is `events_count` incremented.  The `finally`
block clears the running flag on every exit path.  Returns the worker state
after the loop ends together with the list of events delivered to the
callback, in order. -/
def readStdout (decode : String → Option StreamEvent) (d : String) :
    CaptureWorker → List String → CaptureWorker × List StreamEvent
  | w, [] => ({ w with is_running := false }, [])
  | w, l :: rest =>
    if l = "" then ({ w with is_running := false }, [])
    else if l.trim = "" then readStdout decode d w rest
    else
      match decode l.trim with
      | some ev =>
          let r := readStdout decode d
            { w with events_count := w.events_count + 1 } rest
          (r.1, tagSource d ev :: r.2)
      | none => readStdout decode d w rest

/-- The lines of the stream that decode as JSON after stripping (the events
the reader delivers), in stream order. -/
def validLines (decode : String → Option StreamEvent) (lines : List String) :
    List StreamEvent :=
  lines.filterMap (fun l => if l.trim = "" then none else decode l.trim)

/-- C3: For every sequence of lines read from the standard output of the capture
process, blank lines are skipped and lines that are not valid JSON do not
terminate the reader loop: every subsequent valid JSON line is still
delivered to the event callback, and the events counter equals the number of
valid JSON lines seen so far.  (Lines produced by iterating a text stream
are never the empty string — they contain at least their newline — which the
hypothesis records.) -/
theorem read_stdout_skips_blank_and_survives_bad_json
    (decode : String → Option StreamEvent) (d : String) (w : CaptureWorker)
    (lines : List String) (h : ∀ l ∈ lines, l ≠ "") :
    readStdout decode d w lines =
      ({ w with
         is_running := false
         events_count := w.events_count + (validLines decode lines).length },
       (validLines decode lines).map (tagSource d)) := by
  induction lines generalizing w with
  | nil => simp [readStdout, validLines]
  | cons l rest ih =>
    have hl : l ≠ "" := h l (by simp)
    have hrest : ∀ x ∈ rest, x ≠ "" := fun x hx => h x (by simp [hx])
    by_cases ht : l.trim = ""
    · simp [readStdout, hl, ht, validLines, List.filterMap_cons,
        ih w hrest]
    · cases hd : decode l.trim with
      | none =>
        simp [readStdout, hl, ht, hd, validLines, List.filterMap_cons,
          ih w hrest]
      | some ev =>
        simp [readStdout, hl, ht, hd, validLines, List.filterMap_cons,
          ih { w with events_count := w.events_count + 1 } hrest,
          Nat.add_comm, Nat.add_assoc, Nat.add_left_comm]

/-- Concrete fixture for the C3 witness: only well-bracketed lines decode. -/
def decodeC3 : String → Option StreamEvent := fun s =>
  if s = "eventA" then some ⟨none, 1⟩
  else if s = "eventB" then some ⟨some ("edge"), 2⟩
  else none

theorem read_stdout_skips_blank_and_survives_bad_json_witness :
    readStdout decodeC3 ("cam0") CaptureWorker.init
        ["eventA\n", "garbage\n", "  \n", "eventB\n"] =
      ({ CaptureWorker.init with
         is_running := false
         events_count := CaptureWorker.init.events_count +
           (validLines decodeC3
             ["eventA\n", "garbage\n", "  \n", "eventB\n"]).length },
       (validLines decodeC3
         ["eventA\n", "garbage\n", "  \n", "eventB\n"]).map
         (tagSource ("cam0"))) :=
  read_stdout_skips_blank_and_survives_bad_json decodeC3 ("cam0")
    CaptureWorker.init _ (by decide)

/-- State of the `ProcessManager` singleton (`process_manager.py`): the
worker registry (`self.workers`, a dict keyed by device id) plus two
bookkeeping counters for the external effects performed so far — child
processes launched (`subprocess.Popen` calls) and terminate signals sent. -/
structure ManagerState where
  workers : String → Option CaptureWorker
  spawns : ℕ
  signals : ℕ

/-- Source: `device_id in self.workers and self.workers[device_id].is_running`. -/
def runningFor (st : ManagerState) (d : String) : Bool :=
  match st.workers d with
  | some w => w.is_running
  | none => false

/-- Source: `ProcessManager.start_capture` (lines 25–55): reject when a running
worker is registered for the device; otherwise build a fresh
`CaptureWorker` and call its `start`; register the worker only on success.
The body contains no `await` between the check and the registration, so
under the cooperative asyncio scheduler it executes atomically; concurrent
start attempts are sequences of these transitions. -/
def start_capture (st : ManagerState) (d : String) (sid : ℤ)
    (spawnOk : Bool) : Bool × ManagerState :=
  if runningFor st d then (false, st)
  else
    let r := CaptureWorker.init.start sid spawnOk
    if r.1 then
      (true,
        { st with
          workers := fun x => if x = d then some r.2.1 else st.workers x
          spawns := st.spawns + r.2.2 })
    else (false, { st with spawns := st.spawns + r.2.2 })

/-- Source: `ProcessManager.stop_capture` (lines 57–64): unknown device returns
`False`; otherwise delegate to `CaptureWorker.stop` and pop the registry
entry only on success (on failure the registry still holds the same —
possibly mutated in place — worker object). -/
def stop_capture (st : ManagerState) (d : String) (termOk : Bool) :
    Bool × ManagerState :=
  match st.workers d with
  | none => (false, st)
  | some w =>
    let r := w.stop termOk
    if r.1 then
      (true,
        { st with
          workers := fun x => if x = d then none else st.workers x
          signals := st.signals + r.2.2 })
    else
      (false,
        { st with
          workers := fun x => if x = d then some r.2.1 else st.workers x
          signals := st.signals + r.2.2 })

/-- A sequence of start attempts for the same device (all with a successful
spawn), applied one after the other; returns the list of results. -/
def runStarts (d : String) : ManagerState → List ℤ → List Bool × ManagerState
  | st, [] => ([], st)
  | st, sid :: rest =>
    let p := start_capture st d sid true
    let q := runStarts d p.2 rest
    (p.1 :: q.1, q.2)

theorem start_capture_rejects_running {st : ManagerState} {d : String}
    (h : runningFor st d = true) (sid : ℤ) (ok : Bool) :
    start_capture st d sid ok = (false, st) := by
  simp [start_capture, h]

theorem runStarts_of_running {d : String} (sids : List ℤ) :
    ∀ st : ManagerState, runningFor st d = true →
      runStarts d st sids = (List.replicate sids.length false, st) := by
  induction sids with
  | nil => intro st _; simp [runStarts]
  | cons sid rest ih =>
    intro st h
    simp [runStarts, start_capture_rejects_running h sid true, ih st h,
      List.replicate_succ]

/-- C2: At most one running `Worker` exists per `DeviceId` at any time: for
every device id, if a worker for that device is already running,
`start_capture` returns `false` and does not launch a second capture process
(the state, including the launch counter, is unchanged); among concurrent
start attempts for the same device, exactly one succeeds (the attempts
serialize because the critical section contains no `await`). -/
theorem start_capture_at_most_one_running (st : ManagerState) (d : String) :
    (runningFor st d = true →
      ∀ sid ok, start_capture st d sid ok = (false, st)) ∧
    (runningFor st d = false →
      ∀ sids : List ℤ, sids ≠ [] →
        ((runStarts d st sids).1.count true = 1)) := by
  constructor
  · intro h sid ok
    exact start_capture_rejects_running h sid ok
  · intro h sids hne
    cases sids with
    | nil => exact absurd rfl hne
    | cons sid rest =>
      have hstep : start_capture st d sid true =
          (true,
            { st with
              workers := fun x =>
                if x = d then some (CaptureWorker.init.start sid true).2.1
                else st.workers x
              spawns := st.spawns + 1 }) := by
        simp [start_capture, h, CaptureWorker.start, CaptureWorker.init]
      have hrun : runningFor (start_capture st d sid true).2 d = true := by
        rw [hstep]
        simp [runningFor, CaptureWorker.start, CaptureWorker.init]
      simp [runStarts, hstep]
      rw [hstep] at hrun
      simp [runStarts_of_running rest _ hrun, List.count_replicate]

/-- Concrete fixtures for the C2 witness: a state with a running worker for
device cam0, and a state with an empty registry. -/
def stRunning : ManagerState :=
  ⟨fun x => if x = "cam0" then some ⟨true, 5, 0, some 1, true⟩ else none, 1, 0⟩

/-- Empty-registry state for the C2 witness. -/
def stIdle : ManagerState := ⟨fun _ => none, 0, 0⟩

theorem start_capture_at_most_one_running_witness :
    start_capture stRunning ("cam0") 2 true = (false, stRunning) ∧
      (runStarts ("cam0") stIdle [1, 2, 3]).1.count true = 1 :=
  ⟨(start_capture_at_most_one_running stRunning ("cam0")).1 rfl 2 true,
   (start_capture_at_most_one_running stIdle ("cam0")).2 rfl [1, 2, 3]
     (by simp)⟩

/-- C5: `stop_capture` on a device with no registered worker, or whose
worker process is no longer running (for instance after its stdout closed
because the process exited, which clears the running flag), returns `false`
and causes no side effects: no signal is sent and no registry entry is
changed (the manager state is exactly unchanged), and a repeated stop call
also returns `false`. -/
theorem stop_capture_nonrunning_noop (st : ManagerState) (d : String)
    (termOk : Bool) :
    (st.workers d = none →
      stop_capture st d termOk = (false, st) ∧
        ∀ ok2, (stop_capture (stop_capture st d termOk).2 d ok2).1 = false) ∧
    (∀ w, st.workers d = some w → w.is_running = false →
      stop_capture st d termOk = (false, st) ∧
        ∀ ok2, (stop_capture (stop_capture st d termOk).2 d ok2).1 = false) := by
  constructor
  · intro h
    have h1 : stop_capture st d termOk = (false, st) := by
      simp [stop_capture, h]
    refine ⟨h1, fun ok2 => ?_⟩
    rw [h1]
    simp [stop_capture, h]
  · intro w h hrun
    have hstop : w.stop termOk = (false, w, 0) := by
      simp [CaptureWorker.stop, hrun]
    have hws : (fun x => if x = d then some w else st.workers x) = st.workers := by
      funext x
      by_cases hx : x = d
      · subst hx; simp [h]
      · simp [hx]
    have h1 : stop_capture st d termOk = (false, st) := by
      simp only [stop_capture, h, hstop]
      simp [hws]
    refine ⟨h1, fun ok2 => ?_⟩
    rw [h1]
    simp only [stop_capture, h, CaptureWorker.stop, hrun]
    simp

/-- Concrete fixture for the C5 witness: a worker for cam1 whose process
exited after 3 events (running flag cleared by the reader loop), and no
worker at all for cam2. -/
def stCrashed : ManagerState :=
  ⟨fun x => if x = "cam1" then some ⟨false, 3, 0, some 7, true⟩ else none, 1, 0⟩

theorem stop_capture_nonrunning_noop_witness :
    (stop_capture stCrashed ("cam2") true = (false, stCrashed) ∧
      ∀ ok2, (stop_capture (stop_capture stCrashed ("cam2") true).2 ("cam2") ok2).1 = false) ∧
    (stop_capture stCrashed ("cam1") true = (false, stCrashed) ∧
      ∀ ok2, (stop_capture (stop_capture stCrashed ("cam1") true).2 ("cam1") ok2).1 = false) :=
  ⟨(stop_capture_nonrunning_noop stCrashed ("cam2") true).1 rfl,
   (stop_capture_nonrunning_noop stCrashed ("cam1") true).2
     ⟨false, 3, 0, some 7, true⟩ rfl rfl⟩

/-- Result of the `/ingest` endpoint loop (`ingest.py`, lines 120–146):
the two counters, the response status, the events appended to the fallback
log, and the events successfully published to the relay. -/
structure IngestOutcome (ε : Type) where
  inserted : ℕ
  failed : ℕ
  status : String
  fallback : List ε
  published : List ε

/-- The per-event loop of the `ingest` endpoint.  `dbOk` models
`insert_event` (which returns `False` exactly when `db.execute` raises),
`pubOk` the relay publish (its failure is caught and logged), and `fbOk`
`write_to_fallback` (its failure is caught and logged, in which case nothing
reaches the fallback file).  On success the event is published
(best-effort); on failure it is written to the fallback log (best-effort).
The response built after the loop always carries status ok. -/
def ingestLoop {ε : Type} (dbOk pubOk fbOk : ε → Bool) :
    List ε → IngestOutcome ε
  | [] => ⟨0, 0, "ok", [], []⟩
  | e :: rest =>
    let r := ingestLoop dbOk pubOk fbOk rest
    if dbOk e then
      { r with
        inserted := r.inserted + 1
        published := (if pubOk e then [e] else []) ++ r.published }
    else
      { r with
        failed := r.failed + 1
        fallback := (if fbOk e then [e] else []) ++ r.fallback }

/-- The `ingest` endpoint around the loop: an empty batch is rejected with
HTTP 400 before the loop runs (`ingest.py`, lines 114–118). -/
def ingest {ε : Type} (dbOk pubOk fbOk : ε → Bool) (events : List ε) :
    Except ℕ (IngestOutcome ε) :=
  if events.isEmpty then .error 400
  else .ok (ingestLoop dbOk pubOk fbOk events)

theorem ingestLoop_spec {ε : Type} (dbOk pubOk fbOk : ε → Bool)
    (events : List ε) :
    (ingestLoop dbOk pubOk fbOk events).inserted = events.countP dbOk ∧
    (ingestLoop dbOk pubOk fbOk events).failed =
      events.countP (fun e => !dbOk e) ∧
    (ingestLoop dbOk pubOk fbOk events).status = "ok" ∧
    (ingestLoop dbOk pubOk fbOk events).fallback =
      events.filter (fun e => !dbOk e && fbOk e) ∧
    (ingestLoop dbOk pubOk fbOk events).published =
      events.filter (fun e => dbOk e && pubOk e) := by
  induction events with
  | nil => simp [ingestLoop]
  | cons e rest ih =>
    obtain ⟨h1, h2, h3, h4, h5⟩ := ih
    by_cases hdb : dbOk e
    · by_cases hpub : pubOk e <;>
        simp [ingestLoop, hdb, hpub, h1, h2, h3, h4, h5, List.countP_cons,
          List.filter_cons]
    · by_cases hfb : fbOk e <;>
        simp [ingestLoop, hdb, hfb, h1, h2, h3, h4, h5, List.countP_cons,
          List.filter_cons]

/-- C7: For every batch of events submitted to the `/ingest` endpoint, the
returned inserted count equals exactly the number of events whose
persistence succeeded, inserted plus failed equals the batch size, and a
failure while publishing a persisted event to the relay never changes the
inserted/failed counts or the response status (here: replacing the publish
oracle by any other changes none of them). -/
theorem ingest_counts_exact {ε : Type} (dbOk pubOk pubOk2 fbOk : ε → Bool)
    (events : List ε) (hne : events ≠ []) :
    ∃ r, ingest dbOk pubOk fbOk events = .ok r ∧
      r.inserted = events.countP dbOk ∧
      r.inserted + r.failed = events.length ∧
      r.status = "ok" ∧
      (∃ r2, ingest dbOk pubOk2 fbOk events = .ok r2 ∧
        r2.inserted = r.inserted ∧ r2.failed = r.failed ∧
        r2.status = r.status) := by
  obtain ⟨h1, h2, h3, _, _⟩ := ingestLoop_spec dbOk pubOk fbOk events
  obtain ⟨g1, g2, g3, _, _⟩ := ingestLoop_spec dbOk pubOk2 fbOk events
  have hie : events.isEmpty = false := by simpa [List.isEmpty_iff] using hne
  refine ⟨ingestLoop dbOk pubOk fbOk events, by simp [ingest, hie],
    h1, ?_, h3,
    ingestLoop dbOk pubOk2 fbOk events, by simp [ingest, hie], ?_, ?_, ?_⟩
  · rw [h1, h2]
    simpa using (List.length_eq_countP_add_countP dbOk events).symm
  · rw [g1, h1]
  · rw [g2, h2]
  · rw [g3, h3]

theorem ingest_counts_exact_witness :
    ∃ r, ingest (fun n : ℕ => n ≠ 1) (fun _ => true) (fun _ => true) [0, 1, 2] = .ok r ∧
      r.inserted = ([0, 1, 2].countP (fun n : ℕ => n ≠ 1)) ∧
      r.inserted + r.failed = ([0, 1, 2] : List ℕ).length ∧
      r.status = "ok" ∧
      (∃ r2, ingest (fun n : ℕ => n ≠ 1) (fun _ => false) (fun _ => true) [0, 1, 2] = .ok r2 ∧
        r2.inserted = r.inserted ∧ r2.failed = r.failed ∧
        r2.status = r.status) :=
  ingest_counts_exact (fun n : ℕ => n ≠ 1) (fun _ => true) (fun _ => false)
    (fun _ => true) [0, 1, 2] (by simp)

/-- Result of one invocation of the `on_event` callback registered by
`ProcessManager.start_capture` (`process_manager.py`, lines 32–48). -/
structure OnEventOutcome (ε : Type) where
  persisted : Bool
  publishAttempted : Bool
  fallback : List ε

/-- The capture-worker ingestion path: the `on_event` closure of
`ProcessManager.start_capture`.  `parse` models `EventData(**payload)`
(returning `none` when validation raises, which is only logged); on
persistence success the event is published; on persistence failure the
error is logged — the body contains no call to `write_to_fallback`, so its
fallback output is always empty. -/
def on_event {ρ ε : Type} (parse : ρ → Option ε) (dbOk : ε → Bool)
    (raw : ρ) : OnEventOutcome ε :=
  match parse raw with
  | none => ⟨false, false, []⟩
  | some ev => if dbOk ev then ⟨true, true, []⟩ else ⟨false, false, []⟩

/-- C6 counterexample: on the capture-worker callback path, an event whose
persistence fails is dropped — nothing is appended to the fallback log —
contradicting the claim that every ingestion path appends failed events to
the fallback log. -/
theorem on_event_persistence_failure_drops_event :
    (on_event (fun n : ℕ => some n) (fun _ => false) 7).persisted = false ∧
      (on_event (fun n : ℕ => some n) (fun _ => false) 7).fallback = [] :=
  ⟨rfl, rfl⟩

/-- C6 (amended): on the `/ingest` endpoint path, every event whose
persistence fails is appended to the local fallback log, unless the
fallback write itself fails, which is only logged; on the capture-worker
callback path, a persistence failure is only logged and the event is never
appended to the fallback log. -/
theorem fallback_only_on_ingest_endpoint_path {ρ ε : Type}
    (dbOk pubOk fbOk : ε → Bool) (events : List ε)
    (parse : ρ → Option ε) (raw : ρ) :
    (ingestLoop dbOk pubOk fbOk events).fallback =
        events.filter (fun e => !dbOk e && fbOk e) ∧
      (on_event parse dbOk raw).fallback = [] := by
  refine ⟨(ingestLoop_spec dbOk pubOk fbOk events).2.2.2.1, ?_⟩
  rw [on_event]
  rcases parse raw with _ | ev
  · rfl
  · by_cases h : dbOk ev <;> simp [h]

/-- The per-process room registry
`active_connections : Dict[str, Set[WebSocket]]` of `ConnectionManager`
(`ws.py`).  Python sets are modelled as duplicate-free lists (iteration
order fixed by the list). -/
def Registry (ω : Type) := String → Option (List ω)

/-- Source: `ConnectionManager.disconnect` (lines 41–47): discard the socket from
the room set and delete the room entry when the set becomes empty. -/
def disconnect {ω : Type} [DecidableEq ω] (reg : Registry ω) (ws : ω)
    (room : String) : Registry ω :=
  match reg room with
  | none => reg
  | some subs =>
    fun r => if r = room then
        (if subs.erase ws = [] then none else some (subs.erase ws))
      else reg r

/-- Source: `ConnectionManager.broadcast_to_room` (lines 49–63): attempt
`send_text` on every subscriber of the room in iteration order, collecting
the failing ones (`sendOk` is the send oracle); after the iteration,
disconnect each failed subscriber.  Returns the list of subscribers to
which a send was attempted, in order, together with the updated registry. -/
def broadcast_to_room {ω : Type} [DecidableEq ω] (sendOk : ω → Bool)
    (reg : Registry ω) (room : String) : List ω × Registry ω :=
  match reg room with
  | none => ([], reg)
  | some subs =>
    (subs, (subs.filter (fun c => !sendOk c)).foldl
      (fun r c => disconnect r c room) reg)

theorem foldl_disconnect_of_none {ω : Type} [DecidableEq ω] {room : String}
    (ds : List ω) :
    ∀ reg : Registry ω, reg room = none →
      ds.foldl (fun r c => disconnect r c room) reg = reg := by
  induction ds with
  | nil => intro reg _; rfl
  | cons d ds ih =>
    intro reg h
    have hd : disconnect reg d room = reg := by
      rw [disconnect, h]
    rw [List.foldl_cons, hd, ih reg h]

theorem foldl_disconnect_lookup {ω : Type} [DecidableEq ω] {room : String} :
    ∀ (ds : List ω) (reg : Registry ω) (subs : List ω),
      reg room = some subs → subs ≠ [] →
      (ds.foldl (fun r c => disconnect r c room) reg) room =
        (if subs.diff ds = [] then none else some (subs.diff ds)) := by
  intro ds
  induction ds with
  | nil =>
    intro reg subs h hne
    simp [List.diff_nil, h, hne]
  | cons d ds ih =>
    intro reg subs h hne
    rw [List.foldl_cons, List.diff_cons]
    have hd : disconnect reg d room = fun r => if r = room then
        (if subs.erase d = [] then none else some (subs.erase d))
      else reg r := by
      rw [disconnect, h]
    by_cases he : subs.erase d = []
    · have hnone : (disconnect reg d room) room = none := by
        rw [hd]; simp [he]
      rw [foldl_disconnect_of_none ds _ hnone, hnone, he]
      simp [List.nil_diff]
    · have hsome : (disconnect reg d room) room = some (subs.erase d) := by
        rw [hd]; simp [he]
      exact ih (disconnect reg d room) (subs.erase d) hsome he

theorem diff_filter_not_eq_filter {ω : Type} [DecidableEq ω]
    {subs : List ω} (hnd : subs.Nodup) (p : ω → Bool) :
    subs.diff (subs.filter (fun c => !p c)) = subs.filter p := by
  rw [hnd.diff_eq_filter]
  apply List.filter_congr
  intro x hx
  by_cases hp : p x <;> simp [List.mem_filter, hx, hp]

/-- C8: For every broadcast of a payload to a room, a failed send to one
subscriber is only recorded for removal after the iteration: every
subscriber in the room (in particular every other subscriber) is still sent
the message in the same broadcast, and the failing subscribers are removed
from the room only after delivery to all subscribers was attempted — the
resulting registry keeps exactly the subscribers whose send succeeded
(dropping the room entry when none remain).  Rooms are non-empty
duplicate-free sets of sockets, as maintained by connect/disconnect. -/
theorem broadcast_isolates_failed_subscriber {ω : Type} [DecidableEq ω]
    (sendOk : ω → Bool) (reg : Registry ω) (room : String) (subs : List ω)
    (hreg : reg room = some subs) (hnd : subs.Nodup) (hne : subs ≠ []) :
    (broadcast_to_room sendOk reg room).1 = subs ∧
      (∀ b ∈ subs, b ∈ (broadcast_to_room sendOk reg room).1) ∧
      (broadcast_to_room sendOk reg room).2 room =
        (if subs.filter sendOk = [] then none
         else some (subs.filter sendOk)) := by
  have hb : broadcast_to_room sendOk reg room =
      (subs, (subs.filter (fun c => !sendOk c)).foldl
        (fun r c => disconnect r c room) reg) := by
    rw [broadcast_to_room, hreg]
  refine ⟨by rw [hb], by intro b hbmem; rw [hb]; exact hbmem, ?_⟩
  rw [hb]
  dsimp only
  have := foldl_disconnect_lookup (subs.filter (fun c => !sendOk c)) reg subs
    hreg hne
  rw [this, diff_filter_not_eq_filter hnd]

/-- Concrete registry for the C8 witness: room a with subscribers 1 and 2. -/
def regC8 : Registry ℕ := fun r => if r = "a" then some [1, 2] else none

theorem broadcast_isolates_failed_subscriber_witness :
    (broadcast_to_room (fun w => w != 1) regC8 ("a")).1 = [1, 2] ∧
      (∀ b ∈ [1, 2], b ∈ (broadcast_to_room (fun w => w != 1) regC8 ("a")).1) ∧
      (broadcast_to_room (fun w => w != 1) regC8 ("a")).2 ("a") =
        (if [1, 2].filter (fun w => w != 1) = [] then none
         else some ([1, 2].filter (fun w => w != 1))) :=
  broadcast_isolates_failed_subscriber (fun w => w != 1) regC8 ("a") [1, 2]
    rfl (by decide) (by decide)

/-- Source: `ConnectionManager.connect` (ws.py lines 33–39): accept the socket and
add it to the room set, creating the set on first use (set insertion:
adding a present element is a no-op). -/
def connect {ω : Type} [DecidableEq ω] (reg : Registry ω) (ws : ω)
    (room : String) : Registry ω :=
  match reg room with
  | none => fun r => if r = room then some [ws] else reg r
  | some subs =>
    fun r => if r = room then
        some (if ws ∈ subs then subs else subs ++ [ws])
      else reg r

/-- Server state for the live-feed endpoint: the room registry plus one
entry per relay forwarding task created so far (recording the room the task
listens on). -/
structure WsServerState (ω : Type) where
  conns : Registry ω
  tasks : List String

/-- The connection setup of `websocket_live` (ws.py lines 96–108): add the
socket to the room, then unconditionally `asyncio.create_task` a new
`subscribe_and_forward(room)` forwarding task for this connection. -/
def websocket_live_connect {ω : Type} [DecidableEq ω] (st : WsServerState ω)
    (ws : ω) (room : String) : WsServerState ω :=
  ⟨connect st.conns ws room, st.tasks ++ [room]⟩

/-- A sequence of client connections processed one after the other. -/
def runConnects {ω : Type} [DecidableEq ω] :
    WsServerState ω → List (ω × String) → WsServerState ω
  | st, [] => st
  | st, (ws, room) :: rest => runConnects (websocket_live_connect st ws room) rest

/-- Empty server state. -/
def wsInit : WsServerState ℕ := ⟨fun _ => none, []⟩

/-- One message received from the relay (Redis pubsub) by the listen loop of
`subscribe_and_forward`, together with the snapshot of the emptiness check
`room not in self.active_connections or not self.active_connections[room]`
evaluated after handling this message. -/
structure RelayMsg where
  msgType : String
  data : String
  roomEmptyAfter : Bool

/-- The listen loop of `subscribe_and_forward` (ws.py lines 78–88) over the
stream of delivered relay messages: a message of pubsub type message is
rebroadcast to the local subscribers of the room; after handling any message the
loop breaks if the room has no local subscribers; after the loop the relay
channel is unsubscribed.  Returns the rebroadcast payloads in order and
whether the unsubscribe was reached. -/
def subscribe_and_forward : List RelayMsg → List String × Bool
  | [] => ([], true)
  | m :: rest =>
    let out := if m.msgType = "message" then [m.data] else []
    if m.roomEmptyAfter then (out, true)
    else
      let r := subscribe_and_forward rest
      (out ++ r.1, r.2)

/-- C9 counterexample: two clients connecting to the same room each start
their own forwarding task — after two connects to room a, two tasks for a
exist, not the single per-room task the claim describes. -/
theorem forwarding_task_started_once_per_subscriber :
    (runConnects wsInit [(1, "a"), (2, "a")]).tasks.count ("a") = 2 ∧
      ¬ (runConnects wsInit [(1, "a"), (2, "a")]).tasks.count ("a") = 1 := by
  decide

/-- C9 (amended): a relay forwarding task is started once per subscriber
connection — after any sequence of connections, the number of forwarding
tasks for a room equals the number of connections made to that room — and
each task rebroadcasts relay messages until the first message after which
the local subscriber set of the room is observed empty (the emptiness check runs
after each received message): messages after that point are not rebroadcast
and the task unsubscribes from the relay channel. -/
theorem forwarding_task_per_connection_stops_on_empty {ω : Type}
    [DecidableEq ω] (st : WsServerState ω) (l : List (ω × String))
    (room : String) (pre post : List RelayMsg) (m : RelayMsg)
    (hpre : ∀ x ∈ pre, x.roomEmptyAfter = false)
    (hm : m.roomEmptyAfter = true) :
    (runConnects st l).tasks.count room =
        st.tasks.count room + (l.map Prod.snd).count room ∧
      subscribe_and_forward (pre ++ m :: post) =
        (((pre ++ [m]).filter (fun x => x.msgType == "message")).map
          RelayMsg.data, true) := by
  constructor
  · induction l generalizing st with
    | nil => simp [runConnects]
    | cons p rest ih =>
      obtain ⟨ws, r⟩ := p
      rw [runConnects, ih]
      simp [websocket_live_connect, List.count_append, List.count_cons]
      by_cases hr : r = room <;> simp [hr] <;> omega
  · induction pre with
    | nil =>
      rw [List.nil_append, subscribe_and_forward, hm]
      by_cases ht : m.msgType = "message" <;>
        simp [ht, List.filter_cons]
    | cons x pre ih =>
      have hx : x.roomEmptyAfter = false := hpre x (by simp)
      have hrest : ∀ y ∈ pre, y.roomEmptyAfter = false :=
        fun y hy => hpre y (by simp [hy])
      rw [List.cons_append, subscribe_and_forward, hx]
      rw [ih hrest]
      by_cases ht : x.msgType = "message" <;>
        simp [ht, List.filter_cons]

/-- Concrete fixture for the C9 amended-claim witness: one forwarding
stream with a chatter message, a rebroadcast message whose emptiness check
fires, and a message after the stop. -/
def msgsPreC9 : List RelayMsg :=
  [⟨"subscribe", "1", false⟩, ⟨"message", "hello", false⟩]

/-- The message at which the room is observed empty. -/
def msgStopC9 : RelayMsg := ⟨"message", "bye", true⟩

/-- Messages delivered after the loop has stopped. -/
def msgsPostC9 : List RelayMsg := [⟨"message", "late", false⟩]

theorem forwarding_task_per_connection_stops_on_empty_witness :
    (runConnects wsInit [(1, "a"), (2, "a"), (3, "b")]).tasks.count ("a") =
        wsInit.tasks.count ("a") +
          (([(1, "a"), (2, "a"), (3, "b")] : List (ℕ × String)).map
            Prod.snd).count ("a") ∧
      subscribe_and_forward (msgsPreC9 ++ msgStopC9 :: msgsPostC9) =
        (((msgsPreC9 ++ [msgStopC9]).filter
          (fun x => x.msgType == "message")).map RelayMsg.data, true) :=
  forwarding_task_per_connection_stops_on_empty wsInit
    [(1, "a"), (2, "a"), (3, "b")] ("a") msgsPreC9 msgsPostC9 msgStopC9
    (by decide) rfl

end Backend
